import Mathlib

/-!
Shallow embedding of the quota and admission-control subsystem of the
repository (src/app/rate_limiter.py together with the admission phase of
the chat endpoint in src/main.py).

Modelling conventions:
* Timestamps are naturals counting milliseconds (`datetime.now()`); a
  calendar day is derived from a timestamp by integer division
  (`datetime.now().date()`), as both come from the same clock.
* Each Python method receives the clock reading `now` explicitly.
* Python exceptions (`HTTPException`) become an `Option error` result paired
  with the post-state, because a raised exception leaves in place every
  mutation performed before the raise.
* `defaultdict` lookups are total functions with the default value; the
  lazily created daily-usage record is an `Option DailyTokenInfo` whose
  missing value behaves as `(today, 0)` at access time, matching the
  `defaultdict(lambda: {"date": datetime.now().date(), "tokens": 0})` in
  the source.
-/

namespace Reunion

/-- Milliseconds in the one-second sliding window (`timedelta(seconds=1)`). -/
def msPerSecond : Nat := 1000

/-- Milliseconds in the one-minute sliding window (`timedelta(minutes=1)`). -/
def msPerMinute : Nat := 60000

/-- Milliseconds per calendar day. -/
def msPerDay : Nat := 86400000

/-- Calendar day of a timestamp (`datetime.now().date()`). -/
def dayOf (t : Nat) : Nat := t / msPerDay

/-- `RateLimitConfig` from src/app/config.py. -/
structure RateLimitConfig where
  requests_per_minute : Nat
  requests_per_second : Nat
deriving DecidableEq

/-- `TokenLimitsConfig` from src/app/config.py. -/
structure TokenLimitsConfig where
  max_tokens_per_request : Int
  max_tokens_per_day : Int
deriving DecidableEq

/-- One entry of `RateLimiter.daily_tokens`: `{"date": ..., "tokens": ...}`. -/
structure DailyTokenInfo where
  date : Nat
  tokens : Int
deriving DecidableEq

/-- The mutable state of the `RateLimiter` instance in src/app/rate_limiter.py. -/
@[ext]
structure RateLimiterState where
  minute_requests : String → List Nat
  second_requests : String → List Nat
  daily_tokens : String → Option DailyTokenInfo

/-- Point update of a keyed store (mutation of one dict entry). -/
def update {α : Type} (f : String → α) (k : String) (v : α) : String → α :=
  fun k' => if k' = k then v else f k'

/-- The freshly constructed `RateLimiter()`: all stores empty. -/
def initState : RateLimiterState := ⟨fun _ => [], fun _ => [], fun _ => none⟩

/-- The while-loop body of `_clean_old_requests` for one deque: pop from the
front while `now - front > limit`. -/
def cleanOld : List Nat → Nat → Nat → List Nat
  | [], _, _ => []
  | t :: rest, now, limit =>
    if now - t > limit then cleanOld rest now limit else t :: rest

/-- `RateLimiter._clean_old_requests`: prune both windows of one key. -/
def clean_old_requests (s : RateLimiterState) (key : String) (now : Nat) :
    RateLimiterState :=
  { s with
    minute_requests :=
      update s.minute_requests key (cleanOld (s.minute_requests key) now msPerMinute)
    second_requests :=
      update s.second_requests key (cleanOld (s.second_requests key) now msPerSecond) }

/-- The two 429 errors `check_rate_limit` can raise, carrying the violated cap. -/
inductive RateLimitError where
  | perSecond (cap : Nat)
  | perMinute (cap : Nat)
deriving DecidableEq

/-- `RateLimiter.check_rate_limit`: prune, test the per-second cap, then the
per-minute cap, and only if both pass append `now` to both windows. -/
def check_rate_limit (cfg : RateLimitConfig) (s : RateLimiterState) (key : String)
    (now : Nat) : Option RateLimitError × RateLimiterState :=
  let s1 := clean_old_requests s key now
  if (s1.second_requests key).length ≥ cfg.requests_per_second then
    (some (.perSecond cfg.requests_per_second), s1)
  else if (s1.minute_requests key).length ≥ cfg.requests_per_minute then
    (some (.perMinute cfg.requests_per_minute), s1)
  else
    (none,
      { s1 with
        minute_requests :=
          update s1.minute_requests key (s1.minute_requests key ++ [now])
        second_requests :=
          update s1.second_requests key (s1.second_requests key ++ [now]) })

/-- `RateLimiter.get_remaining_requests`: prune, then report
`cap - len(window)` for the minute and second windows (in that order). -/
def get_remaining_requests (cfg : RateLimitConfig) (s : RateLimiterState)
    (key : String) (now : Nat) : (Int × Int) × RateLimiterState :=
  let s1 := clean_old_requests s key now
  (((cfg.requests_per_minute : Int) - (s1.minute_requests key).length,
    (cfg.requests_per_second : Int) - (s1.second_requests key).length), s1)

/-- The two 403 errors `check_token_limit` can raise. -/
inductive TokenLimitError where
  | perRequest (requested maxAllowed : Int)
  | perDay (used requested maxAllowed : Int)
deriving DecidableEq

/-- `RateLimiter.check_token_limit`: per-request ceiling first (before any
state is touched), then day rollover, then the daily-total test. -/
def check_token_limit (cfg : TokenLimitsConfig) (s : RateLimiterState)
    (key : String) (requested_tokens : Int) (now : Nat) :
    Option TokenLimitError × RateLimiterState :=
  if requested_tokens > cfg.max_tokens_per_request then
    (some (.perRequest requested_tokens cfg.max_tokens_per_request), s)
  else
    let today := dayOf now
    let info0 := (s.daily_tokens key).getD ⟨today, 0⟩
    let info := if info0.date ≠ today then (⟨today, 0⟩ : DailyTokenInfo) else info0
    let s1 := { s with daily_tokens := update s.daily_tokens key (some info) }
    if info.tokens + requested_tokens > cfg.max_tokens_per_day then
      (some (.perDay info.tokens requested_tokens cfg.max_tokens_per_day), s1)
    else
      (none, s1)

/-- `RateLimiter.add_token_usage`: day rollover, add the used tokens, return
`max(0, max_tokens_per_day - total)`. -/
def add_token_usage (cfg : TokenLimitsConfig) (s : RateLimiterState)
    (key : String) (tokens_used : Int) (now : Nat) : Int × RateLimiterState :=
  let today := dayOf now
  let info0 := (s.daily_tokens key).getD ⟨today, 0⟩
  let info1 := if info0.date ≠ today then (⟨today, 0⟩ : DailyTokenInfo) else info0
  let info2 : DailyTokenInfo := ⟨today, info1.tokens + tokens_used⟩
  let remaining := cfg.max_tokens_per_day - info2.tokens
  (max 0 remaining, { s with daily_tokens := update s.daily_tokens key (some info2) })

/-- Error taxonomy of the admission phase of the chat endpoint. -/
inductive ChatError where
  | rate (e : RateLimitError)
  | quota (e : TokenLimitError)
deriving DecidableEq

/-- Whole-app configuration (the parts admission uses). -/
structure AppConfig where
  rate_limit : RateLimitConfig
  token_limits : TokenLimitsConfig

/-- Admission phase of the `chat` endpoint in src/main.py: `check_rate_limit`
then `check_token_limit`; a raised `HTTPException` propagates with every
mutation already made left in place. -/
def chat (cfg : AppConfig) (s : RateLimiterState) (key : String)
    (max_tokens : Int) (now : Nat) : Option ChatError × RateLimiterState :=
  let pr := check_rate_limit cfg.rate_limit s key now
  match pr.1 with
  | some e => (some (ChatError.rate e), pr.2)
  | none =>
    let pt := check_token_limit cfg.token_limits pr.2 key max_tokens now
    match pt.1 with
    | some e => (some (ChatError.quota e), pt.2)
    | none => (none, pt.2)

/-- A sequence of `check_rate_limit` calls for one key at the given
timestamps, threading the state; returns the list of outcomes. -/
def runChecks (cfg : RateLimitConfig) (key : String) :
    RateLimiterState → List Nat → List (Option RateLimitError) × RateLimiterState
  | s, [] => ([], s)
  | s, t :: ts =>
    let p := check_rate_limit cfg s key t
    let q := runChecks cfg key p.2 ts
    (p.1 :: q.1, q.2)

/-! ### Helper lemmas -/

@[simp]
theorem update_same {α : Type} (f : String → α) (k : String) (v : α) :
    update f k v k = v := by
  simp [update]

theorem update_update {α : Type} (f : String → α) (k : String) (v w : α) :
    update (update f k v) k w = update f k w := by
  funext k'
  by_cases h : k' = k <;> simp [update, h]

theorem cleanOld_mem (now d : Nat) :
    ∀ l : List Nat, List.Pairwise (fun a b => a ≤ b) l →
      ∀ t, (t ∈ cleanOld l now d ↔ t ∈ l ∧ now - t ≤ d) := by
  intro l
  induction l with
  | nil => intro _ t; simp [cleanOld]
  | cons a rest ih =>
    intro hp t
    rw [List.pairwise_cons] at hp
    by_cases hst : now - a > d
    · simp only [cleanOld, if_pos hst]
      rw [ih hp.2 t]
      constructor
      · rintro ⟨ht, hf⟩
        exact ⟨List.mem_cons_of_mem a ht, hf⟩
      · rintro ⟨ht, hf⟩
        rcases List.mem_cons.mp ht with rfl | ht
        · omega
        · exact ⟨ht, hf⟩
    · simp only [cleanOld, if_neg hst]
      constructor
      · intro ht
        refine ⟨ht, ?_⟩
        rcases List.mem_cons.mp ht with rfl | ht
        · omega
        · have hat := hp.1 t ht
          omega
      · exact fun h => h.1

theorem cleanOld_idem (l : List Nat) (now d : Nat) :
    cleanOld (cleanOld l now d) now d = cleanOld l now d := by
  induction l with
  | nil => rfl
  | cons a rest ih =>
    by_cases h : now - a > d
    · simp only [cleanOld, if_pos h]
      exact ih
    · simp only [cleanOld, if_neg h]

theorem cleanOld_length_le (l : List Nat) (now d : Nat) :
    (cleanOld l now d).length ≤ l.length := by
  induction l with
  | nil => simp [cleanOld]
  | cons a rest ih =>
    by_cases h : now - a > d
    · simp only [cleanOld, if_pos h, List.length_cons]
      exact Nat.le_succ_of_le ih
    · simp only [cleanOld, if_neg h]
      exact Nat.le_refl _

/-! ### Claims -/

/-- Claim C1: sliding-window rate limiting is correct for the per-second
window. With `requests_per_second = 3` and a non-binding per-minute cap,
admissions at t=0, 0.1s, 0.2s succeed, a fourth at 0.3s fails with the
per-second error, and one at 1.05s succeeds because the t=0 event aged out;
and pruning keeps exactly the timestamps `t` with `now - t ≤ D` (for a
window stored in time order, as maintained by the limiter). -/
theorem c1_sliding_window (l : List Nat) (now d t : Nat)
    (hsorted : List.Pairwise (fun a b => a ≤ b) l) :
    (runChecks ⟨100, 3⟩ "a" initState [0, 100, 200, 300, 1050]).1
      = [none, none, none, some (RateLimitError.perSecond 3), none] ∧
    (t ∈ cleanOld l now d ↔ t ∈ l ∧ now - t ≤ d) :=
  ⟨by decide, cleanOld_mem now d l hsorted t⟩

theorem c1_sliding_window_witness :
    List.Pairwise (fun a b : Nat => a ≤ b) [0, 5] ∧
    ((runChecks ⟨100, 3⟩ "a" initState [0, 100, 200, 300, 1050]).1
      = [none, none, none, some (RateLimitError.perSecond 3), none] ∧
    (5 ∈ cleanOld [0, 5] 6 3 ↔ 5 ∈ [0, 5] ∧ 6 - 5 ≤ 3)) :=
  ⟨by decide, c1_sliding_window [0, 5] 6 3 5 (by decide)⟩

/-- Claim C2: daily rollover on commit. If the stored usage record for a key
carries a day different from the day of `now`, `add_token_usage` first resets
the usage to 0 and updates the day, then adds the actual units, so the stored
total for the new day is exactly the committed amount (50, not 950, in the
spec's instance). -/
theorem c2_daily_rollover (cfg : TokenLimitsConfig) (s : RateLimiterState)
    (key : String) (u : Int) (now : Nat) (d : Nat) (uPrev : Int)
    (hstore : s.daily_tokens key = some ⟨d, uPrev⟩) (hday : dayOf now ≠ d) :
    (add_token_usage cfg s key u now).2.daily_tokens key = some ⟨dayOf now, u⟩ ∧
    (add_token_usage cfg s key u now).1 = max 0 (cfg.max_tokens_per_day - u) := by
  have hd : d ≠ dayOf now := Ne.symm hday
  unfold add_token_usage
  simp [hstore, hd]

/-- The state in the spec's daily-rollover instance: subject "a" has used 900
units on day 0. -/
def yesterdayState : RateLimiterState :=
  ⟨fun _ => [], fun _ => [], fun k => if k = "a" then some ⟨0, 900⟩ else none⟩

theorem c2_daily_rollover_witness :
    yesterdayState.daily_tokens "a" = some ⟨0, 900⟩ ∧ dayOf 86400000 ≠ 0 ∧
    ((add_token_usage ⟨500, 1000⟩ yesterdayState "a" 50 86400000).2.daily_tokens "a"
        = some ⟨dayOf 86400000, 50⟩ ∧
     (add_token_usage ⟨500, 1000⟩ yesterdayState "a" 50 86400000).1
        = max 0 (1000 - 50)) :=
  ⟨by decide, by decide,
    c2_daily_rollover ⟨500, 1000⟩ yesterdayState "a" 50 86400000 0 900
      (by decide) (by decide)⟩

/-- Claim C4: the per-second window is evaluated before the per-minute window.
Concretely, with `cap_second=100, cap_minute=5`, five calls within one second
succeed and a sixth fails with the per-minute error; and whenever both pruned
windows are at or over their caps, the reported error is the per-second one. -/
theorem c4_second_before_minute (cfg : RateLimitConfig) (s : RateLimiterState)
    (key : String) (now : Nat)
    (hsec : cfg.requests_per_second
      ≤ ((clean_old_requests s key now).second_requests key).length)
    (hmin : cfg.requests_per_minute
      ≤ ((clean_old_requests s key now).minute_requests key).length) :
    (runChecks ⟨5, 100⟩ "a" initState [0, 100, 200, 300, 400, 500]).1
      = [none, none, none, none, none, some (RateLimitError.perMinute 5)] ∧
    (check_rate_limit cfg s key now).1
      = some (RateLimitError.perSecond cfg.requests_per_second) := by
  refine ⟨by decide, ?_⟩
  unfold check_rate_limit
  simp [hsec]

/-- A state whose two windows for "a" hold one event at t=50ms. -/
def oneEventState : RateLimiterState :=
  ⟨fun k => if k = "a" then [50] else [],
   fun k => if k = "a" then [50] else [],
   fun _ => none⟩

theorem c4_second_before_minute_witness :
    (1 : Nat) ≤ ((clean_old_requests oneEventState "a" 60).second_requests "a").length ∧
    (1 : Nat) ≤ ((clean_old_requests oneEventState "a" 60).minute_requests "a").length ∧
    ((runChecks ⟨5, 100⟩ "a" initState [0, 100, 200, 300, 400, 500]).1
      = [none, none, none, none, none, some (RateLimitError.perMinute 5)] ∧
    (check_rate_limit ⟨1, 1⟩ oneEventState "a" 60).1
      = some (RateLimitError.perSecond 1)) :=
  ⟨by decide, by decide,
    c4_second_before_minute ⟨1, 1⟩ oneEventState "a" 60 (by decide) (by decide)⟩

/-- Claim C5: the per-request ceiling check fails with the per-request quota
error if and only if `requested > max_tokens_per_request`, for every state
(so independently of the daily total), and on that failure the state is
returned unchanged. -/
theorem c5_per_request_ceiling (cfg : TokenLimitsConfig) (s : RateLimiterState)
    (key : String) (req : Int) (now : Nat) :
    ((check_token_limit cfg s key req now).1
        = some (TokenLimitError.perRequest req cfg.max_tokens_per_request)
      ↔ cfg.max_tokens_per_request < req) ∧
    (cfg.max_tokens_per_request < req →
      check_token_limit cfg s key req now
        = (some (TokenLimitError.perRequest req cfg.max_tokens_per_request), s)) := by
  unfold check_token_limit
  by_cases h : req > cfg.max_tokens_per_request
  · simp [h]
  · simp only [gt_iff_lt] at h
    simp only [if_neg h]
    refine ⟨?_, fun hc => absurd hc h⟩
    constructor
    · intro habs
      split at habs <;> split at habs <;> simp_all
    · intro hc
      exact absurd hc h

theorem c5_per_request_ceiling_witness :
    ((500 : Int) < 600) ∧
    (((check_token_limit ⟨500, 1000⟩ initState "a" 600 0).1
        = some (TokenLimitError.perRequest 600 500)) ↔ (500 : Int) < 600) ∧
    check_token_limit ⟨500, 1000⟩ initState "a" 600 0
      = (some (TokenLimitError.perRequest 600 500), initState) :=
  ⟨by decide,
    (c5_per_request_ceiling ⟨500, 1000⟩ initState "a" 600 0).1,
    (c5_per_request_ceiling ⟨500, 1000⟩ initState "a" 600 0).2 (by decide)⟩

/-- Daily token total stored for a key (0-defaulted read of the record). -/
def dailyTokensOf (s : RateLimiterState) (key : String) : Int :=
  ((s.daily_tokens key).getD ⟨0, 0⟩).tokens

/-- Claim C6: `add_token_usage` always succeeds and returns
`max_tokens_per_day` minus the key's new daily total, clamped at 0 from
below, even when the committed usage overshoots the daily maximum. -/
theorem c6_record_usage_clamped (cfg : TokenLimitsConfig) (s : RateLimiterState)
    (key : String) (used : Int) (now : Nat) :
    (add_token_usage cfg s key used now).1
      = max 0 (cfg.max_tokens_per_day
                - dailyTokensOf (add_token_usage cfg s key used now).2 key) ∧
    0 ≤ (add_token_usage cfg s key used now).1 := by
  unfold add_token_usage dailyTokensOf
  simp

/-- A state whose daily record for "a" is 500 units used on day 0. -/
def usedTokensState : RateLimiterState :=
  ⟨fun _ => [], fun _ => [], fun k => if k = "a" then some ⟨0, 500⟩ else none⟩

/-- Claim C7 evaluation at the failing input: negative unit counts are
processed, not rejected. `check_token_limit` with `requested_tokens = -600`
raises no error at all (and its error type has no input-validation kind), and
`add_token_usage` with `tokens_used = -100` happily decrements the stored
daily total from 500 to 400 and reports 600 units remaining. -/
theorem c7_negative_units_processed :
    (check_token_limit ⟨500, 1000⟩ initState "a" (-600) 0).1 = none ∧
    (add_token_usage ⟨500, 1000⟩ usedTokensState "a" (-100) 0).1 = 600 ∧
    (add_token_usage ⟨500, 1000⟩ usedTokensState "a" (-100) 0).2.daily_tokens "a"
      = some ⟨0, 400⟩ := by
  decide

theorem clean_old_requests_idem (s : RateLimiterState) (key : String) (now : Nat) :
    clean_old_requests (clean_old_requests s key now) key now
      = clean_old_requests s key now := by
  unfold clean_old_requests
  simp only [update_same]
  rw [cleanOld_idem, cleanOld_idem, update_update, update_update]

/-- Claim C8: `get_remaining_requests` is idempotent. Calling it twice at the
same time with no intervening mutation returns the same per-minute and
per-second values, and its only state change (pruning) does not change the
answer or the state of the second call. -/
theorem c8_remaining_idempotent (cfg : RateLimitConfig) (s : RateLimiterState)
    (key : String) (now : Nat) :
    (get_remaining_requests cfg (get_remaining_requests cfg s key now).2 key now).1
      = (get_remaining_requests cfg s key now).1 ∧
    (get_remaining_requests cfg (get_remaining_requests cfg s key now).2 key now).2
      = (get_remaining_requests cfg s key now).2 := by
  unfold get_remaining_requests
  rw [clean_old_requests_idem]
  exact ⟨rfl, rfl⟩

theorem check_token_limit_windows (cfg : TokenLimitsConfig) (s : RateLimiterState)
    (key : String) (req : Int) (now : Nat) :
    (check_token_limit cfg s key req now).2.second_requests = s.second_requests ∧
    (check_token_limit cfg s key req now).2.minute_requests = s.minute_requests := by
  unfold check_token_limit
  dsimp only
  repeat' split
  all_goals exact ⟨rfl, rfl⟩

theorem check_rate_limit_ok_windows (cfg : RateLimitConfig) (s : RateLimiterState)
    (key : String) (now : Nat)
    (h : (check_rate_limit cfg s key now).1 = none) :
    (check_rate_limit cfg s key now).2.second_requests key
      = cleanOld (s.second_requests key) now msPerSecond ++ [now] ∧
    (check_rate_limit cfg s key now).2.minute_requests key
      = cleanOld (s.minute_requests key) now msPerMinute ++ [now] := by
  unfold check_rate_limit at h ⊢
  dsimp only at h ⊢
  split at h
  · exact absurd h (by simp)
  · split at h
    · exact absurd h (by simp)
    · rename_i hc1 hc2
      simp only [clean_old_requests, update_same] at hc1 hc2 ⊢
      simp [hc1, hc2, update_same, update_update]

/-- The state of the C3 counterexample: one stale event (t=0) in each window
of subject "a". -/
def staleState : RateLimiterState :=
  ⟨fun k => if k = "a" then [0] else [],
   fun k => if k = "a" then [0] else [],
   fun _ => none⟩

/-- Claim C3 counterexample: at `now = 61001` ms both stored events of
`staleState` are stale, so both rate checks pass after pruning and the
600-token request is denied for quota; yet each window afterwards holds 1
timestamp — the same count as before the attempt, not one more, because the
stale event was pruned during the attempt. -/
theorem c3_counterexample :
    (chat ⟨⟨5, 3⟩, ⟨500, 1000⟩⟩ staleState "a" 600 61001).1
      = some (ChatError.quota (TokenLimitError.perRequest 600 500)) ∧
    (staleState.second_requests "a").length = 1 ∧
    (staleState.minute_requests "a").length = 1 ∧
    ((chat ⟨⟨5, 3⟩, ⟨500, 1000⟩⟩ staleState "a" 600 61001).2.second_requests "a").length = 1 ∧
    ((chat ⟨⟨5, 3⟩, ⟨500, 1000⟩⟩ staleState "a" 600 61001).2.minute_requests "a").length = 1 ∧
    ((chat ⟨⟨5, 3⟩, ⟨500, 1000⟩⟩ staleState "a" 600 61001).2.second_requests "a").length
      ≠ (staleState.second_requests "a").length + 1 := by
  decide

/-- Claim C3 amended: after an admission denied for quota, each of the
subject's two windows equals its pruned contents with the admission timestamp
appended — one more timestamp than the window held after pruning at the
admission time (and hence one more in-window timestamp than before the
attempt); the rate-window record is not rolled back. -/
theorem c3_quota_denial_keeps_slot (cfg : AppConfig) (s : RateLimiterState)
    (key : String) (mt : Int) (now : Nat) (e : TokenLimitError)
    (h : (chat cfg s key mt now).1 = some (ChatError.quota e)) :
    (chat cfg s key mt now).2.second_requests key
      = cleanOld (s.second_requests key) now msPerSecond ++ [now] ∧
    (chat cfg s key mt now).2.minute_requests key
      = cleanOld (s.minute_requests key) now msPerMinute ++ [now] ∧
    ((chat cfg s key mt now).2.second_requests key).length
      = (cleanOld (s.second_requests key) now msPerSecond).length + 1 ∧
    ((chat cfg s key mt now).2.minute_requests key).length
      = (cleanOld (s.minute_requests key) now msPerMinute).length + 1 := by
  unfold chat at h ⊢
  rcases hr : (check_rate_limit cfg.rate_limit s key now).1 with _ | e'
  · have hw := check_rate_limit_ok_windows cfg.rate_limit s key now hr
    have hcw := check_token_limit_windows cfg.token_limits
      (check_rate_limit cfg.rate_limit s key now).2 key mt now
    simp only [hr] at h ⊢
    rcases ht : (check_token_limit cfg.token_limits
        (check_rate_limit cfg.rate_limit s key now).2 key mt now).1 with _ | e''
    · simp [ht] at h
    · simp only [ht]
      rw [hcw.1, hcw.2, hw.1, hw.2]
      simp
  · simp [hr] at h

theorem c3_quota_denial_keeps_slot_witness :
    (chat ⟨⟨5, 3⟩, ⟨500, 1000⟩⟩ initState "a" 600 0).1
      = some (ChatError.quota (TokenLimitError.perRequest 600 500)) ∧
    ((chat ⟨⟨5, 3⟩, ⟨500, 1000⟩⟩ initState "a" 600 0).2.second_requests "a"
      = cleanOld (initState.second_requests "a") 0 msPerSecond ++ [0] ∧
    (chat ⟨⟨5, 3⟩, ⟨500, 1000⟩⟩ initState "a" 600 0).2.minute_requests "a"
      = cleanOld (initState.minute_requests "a") 0 msPerMinute ++ [0] ∧
    ((chat ⟨⟨5, 3⟩, ⟨500, 1000⟩⟩ initState "a" 600 0).2.second_requests "a").length
      = (cleanOld (initState.second_requests "a") 0 msPerSecond).length + 1 ∧
    ((chat ⟨⟨5, 3⟩, ⟨500, 1000⟩⟩ initState "a" 600 0).2.minute_requests "a").length
      = (cleanOld (initState.minute_requests "a") 0 msPerMinute).length + 1) :=
  ⟨by decide,
    c3_quota_denial_keeps_slot ⟨⟨5, 3⟩, ⟨500, 1000⟩⟩ initState "a" 600 0
      (TokenLimitError.perRequest 600 500) (by decide)⟩

theorem c9_aux (cfg : RateLimitConfig) (key : String) (t0 : Nat)
    (h1 : cfg.requests_per_second = 1) :
    ∀ (ts : List Nat) (s : RateLimiterState),
      s.second_requests key = [t0] → (∀ t ∈ ts, t - t0 ≤ msPerSecond) →
      (runChecks cfg key s ts).1
        = ts.map (fun _ => some (RateLimitError.perSecond cfg.requests_per_second)) := by
  intro ts
  induction ts with
  | nil => intro s _ _; rfl
  | cons t rest ih =>
    intro s hsec hts
    have hfresh : ¬ (t - t0 > msPerSecond) := by
      have := hts t (List.mem_cons_self t rest)
      omega
    have hclean : (clean_old_requests s key t).second_requests key = [t0] := by
      simp only [clean_old_requests, update_same, hsec, cleanOld, if_neg hfresh]
    have hle : cfg.requests_per_second ≤ 1 := h1.le
    have hstep1 : (check_rate_limit cfg s key t).1
        = some (RateLimitError.perSecond cfg.requests_per_second) := by
      unfold check_rate_limit
      simp [hclean, hle]
    have hstep2 : (check_rate_limit cfg s key t).2.second_requests key = [t0] := by
      unfold check_rate_limit
      simp [hclean, hle]
    show (check_rate_limit cfg s key t).1
        :: (runChecks cfg key (check_rate_limit cfg s key t).2 rest).1 = _
    rw [hstep1, List.map_cons]
    have hrest : ∀ x ∈ rest, x - t0 ≤ msPerSecond :=
      fun x hx => hts x (List.mem_cons_of_mem t hx)
    rw [ih (check_rate_limit cfg s key t).2 hstep2 hrest]

/-- Claim C9: with each admission made atomic (per-subject lock), any
interleaving of N concurrent admissions is some sequential order of the N
calls. For cap `requests_per_second = 1` (and any positive per-minute cap),
running the first call at `t0` and the other N-1 calls at times within the
one-second window of `t0` from a fresh state yields exactly one success and
N-1 per-second rejections, whatever the order and timing of the others. -/
theorem c9_lock_exactly_one (cfg : RateLimitConfig) (key : String)
    (t0 : Nat) (ts : List Nat)
    (h1 : cfg.requests_per_second = 1) (h2 : 1 ≤ cfg.requests_per_minute)
    (h3 : ∀ t ∈ ts, t - t0 ≤ msPerSecond) :
    ((runChecks cfg key initState (t0 :: ts)).1.countP (fun r => r.isNone) = 1) ∧
    ((runChecks cfg key initState (t0 :: ts)).1.countP (fun r => r.isSome) = ts.length) := by
  have hrps : ¬ (cfg.requests_per_second = 0) := by omega
  have hrpm : ¬ (cfg.requests_per_minute = 0) := by omega
  have hfirst1 : (check_rate_limit cfg initState key t0).1 = none := by
    unfold check_rate_limit
    simp [clean_old_requests, update_same, initState, cleanOld, hrps, hrpm]
  have hfirst2 : (check_rate_limit cfg initState key t0).2.second_requests key = [t0] := by
    unfold check_rate_limit
    simp [clean_old_requests, update_same, update_update, initState, cleanOld, hrps, hrpm]
  have hrun : (runChecks cfg key initState (t0 :: ts)).1
      = none :: ts.map (fun _ => some (RateLimitError.perSecond cfg.requests_per_second)) := by
    show (check_rate_limit cfg initState key t0).1
        :: (runChecks cfg key (check_rate_limit cfg initState key t0).2 ts).1 = _
    rw [hfirst1, c9_aux cfg key t0 h1 ts (check_rate_limit cfg initState key t0).2 hfirst2 h3]
  rw [hrun]
  constructor
  · rw [List.countP_cons]
    simp only [Option.isNone_none, List.countP_map]
    have : List.countP ((fun r => r.isNone)
        ∘ (fun _ : Nat => some (RateLimitError.perSecond cfg.requests_per_second))) ts = 0 := by
      rw [List.countP_eq_zero]
      intro a _
      simp [Function.comp]
    simp [this]
  · rw [List.countP_cons]
    simp only [Option.isSome_none, List.countP_map]
    have : List.countP ((fun r => r.isSome)
        ∘ (fun _ : Nat => some (RateLimitError.perSecond cfg.requests_per_second))) ts
        = ts.length := by
      rw [List.countP_eq_length]
      intro a _
      simp [Function.comp]
    simp [this]

/-- Configuration for the C9 witness: per-minute cap 5, per-second cap 1. -/
def cfg9 : RateLimitConfig := ⟨5, 1⟩

theorem c9_lock_exactly_one_witness :
    cfg9.requests_per_second = 1 ∧ 1 ≤ cfg9.requests_per_minute ∧
    (∀ t ∈ [100, 200], t - 0 ≤ msPerSecond) ∧
    (((runChecks cfg9 "a" initState [0, 100, 200]).1.countP (fun r => r.isNone) = 1) ∧
     ((runChecks cfg9 "a" initState [0, 100, 200]).1.countP (fun r => r.isSome)
        = ([100, 200] : List Nat).length)) :=
  ⟨rfl, by decide, by decide,
    c9_lock_exactly_one cfg9 "a" 0 [100, 200] rfl (by decide) (by decide)⟩

/-- The operations of the rate-window part of the limiter, each carrying the
clock reading at which it runs. -/
inductive RLOp where
  | check (key : String) (now : Nat)
  | remaining (key : String) (now : Nat)

/-- Clock reading of an operation. -/
def opTime : RLOp → Nat
  | .check _ n => n
  | .remaining _ n => n

/-- State effect of one operation. -/
def applyOp (cfg : RateLimitConfig) (s : RateLimiterState) : RLOp → RateLimiterState
  | .check key now => (check_rate_limit cfg s key now).2
  | .remaining key now => (get_remaining_requests cfg s key now).2

/-- Run a sequence of operations from a state. -/
def runOps (cfg : RateLimitConfig) : RateLimiterState → List RLOp → RateLimiterState
  | s, [] => s
  | s, op :: ops => runOps cfg (applyOp cfg s op) ops

/-- Every subject's second window holds at most `requests_per_second`
timestamps and its minute window at most `requests_per_minute`. -/
def WindowsBounded (cfg : RateLimitConfig) (s : RateLimiterState) : Prop :=
  ∀ k, (s.second_requests k).length ≤ cfg.requests_per_second ∧
       (s.minute_requests k).length ≤ cfg.requests_per_minute

theorem clean_preserves_bounded (cfg : RateLimitConfig) (s : RateLimiterState)
    (key : String) (now : Nat) (h : WindowsBounded cfg s) :
    WindowsBounded cfg (clean_old_requests s key now) := by
  intro k
  by_cases hk : k = key
  · subst hk
    simp only [clean_old_requests, update_same]
    exact ⟨le_trans (cleanOld_length_le _ _ _) (h k).1,
           le_trans (cleanOld_length_le _ _ _) (h k).2⟩
  · simp only [clean_old_requests, update, if_neg hk]
    exact h k

theorem check_preserves_bounded (cfg : RateLimitConfig) (s : RateLimiterState)
    (key : String) (now : Nat) (h : WindowsBounded cfg s) :
    WindowsBounded cfg (check_rate_limit cfg s key now).2 := by
  have hc := clean_preserves_bounded cfg s key now h
  unfold check_rate_limit
  dsimp only
  split
  · exact hc
  · split
    · exact hc
    · rename_i h1 h2
      intro k
      by_cases hk : k = key
      · subst hk
        simp only [update_same]
        constructor
        · rw [List.length_append]
          simp only [List.length_cons, List.length_nil]
          omega
        · rw [List.length_append]
          simp only [List.length_cons, List.length_nil]
          omega
      · simp only [update, if_neg hk]
        exact hc k

theorem applyOp_preserves_bounded (cfg : RateLimitConfig) (s : RateLimiterState)
    (op : RLOp) (h : WindowsBounded cfg s) :
    WindowsBounded cfg (applyOp cfg s op) := by
  cases op with
  | check key now => exact check_preserves_bounded cfg s key now h
  | remaining key now => exact clean_preserves_bounded cfg s key now h

theorem runOps_preserves_bounded (cfg : RateLimitConfig) :
    ∀ (ops : List RLOp) (s : RateLimiterState), WindowsBounded cfg s →
      WindowsBounded cfg (runOps cfg s ops) := by
  intro ops
  induction ops with
  | nil => intro s h; exact h
  | cons op rest ih =>
    intro s h
    exact ih (applyOp cfg s op) (applyOp_preserves_bounded cfg s op h)

/-- Claim C10: for every sequence of `check_rate_limit` and
`get_remaining_requests` calls with non-decreasing timestamps, starting from
the fresh limiter, each subject's second window never holds more than
`requests_per_second` timestamps and each minute window never more than
`requests_per_minute` (timestamps are appended only after both caps pass),
so the per-minute and per-second values `get_remaining_requests` returns are
never negative. -/
theorem c10_windows_never_overfull (cfg : RateLimitConfig) (ops : List RLOp)
    (key : String) (now : Nat)
    (hmono : List.Chain' (fun a b => a ≤ b) (ops.map opTime)) :
    WindowsBounded cfg (runOps cfg initState ops) ∧
    0 ≤ ((get_remaining_requests cfg (runOps cfg initState ops) key now).1).1 ∧
    0 ≤ ((get_remaining_requests cfg (runOps cfg initState ops) key now).1).2 := by
  have hb : WindowsBounded cfg (runOps cfg initState ops) :=
    runOps_preserves_bounded cfg ops initState (by intro k; simp [initState])
  refine ⟨hb, ?_, ?_⟩
  · have h1 : ((clean_old_requests (runOps cfg initState ops) key now).minute_requests key).length
        ≤ cfg.requests_per_minute := by
      simp only [clean_old_requests, update_same]
      exact le_trans (cleanOld_length_le _ _ _) (hb key).2
    unfold get_remaining_requests
    dsimp only
    omega
  · have h2 : ((clean_old_requests (runOps cfg initState ops) key now).second_requests key).length
        ≤ cfg.requests_per_second := by
      simp only [clean_old_requests, update_same]
      exact le_trans (cleanOld_length_le _ _ _) (hb key).1
    unfold get_remaining_requests
    dsimp only
    omega

theorem c10_windows_never_overfull_witness :
    List.Chain' (fun a b => a ≤ b)
      (([RLOp.check "a" 0, RLOp.check "a" 100, RLOp.remaining "a" 200]).map opTime) ∧
    (WindowsBounded ⟨2, 1⟩
        (runOps ⟨2, 1⟩ initState [RLOp.check "a" 0, RLOp.check "a" 100, RLOp.remaining "a" 200]) ∧
     0 ≤ ((get_remaining_requests ⟨2, 1⟩
        (runOps ⟨2, 1⟩ initState [RLOp.check "a" 0, RLOp.check "a" 100, RLOp.remaining "a" 200])
        "a" 300).1).1 ∧
     0 ≤ ((get_remaining_requests ⟨2, 1⟩
        (runOps ⟨2, 1⟩ initState [RLOp.check "a" 0, RLOp.check "a" 100, RLOp.remaining "a" 200])
        "a" 300).1).2) :=
  ⟨by simp [opTime], c10_windows_never_overfull ⟨2, 1⟩
    [RLOp.check "a" 0, RLOp.check "a" 100, RLOp.remaining "a" 200] "a" 300
    (by simp [opTime])⟩

end Reunion
